import Mathlib

/-!
Verification of `tastypie_services/services.py` (crankycoder/tastypie-services).

The module defines four HTTP resources on top of the tastypie REST framework:
a centralized 500-error formatter (`ServiceResource._handle_500`), an
error-simulation resource (`ErrorResource`), a settings-introspection resource
(`SettingsResource`) and a health-status resource (`StatusResource`).

The shallow embedding below translates each of those, faithfully to the
Python source.  External collaborators (the safe-settings snapshot, the
redaction function `debug.cleanse_setting`, the stack trace, the request
representation, mail delivery) are passed in as explicit parameters.
-/

/-- A caught Python exception, with the attributes `_handle_500` inspects:
`str(exception)` is `message`; `getattr(exception, 'id', ...)` reads `idAttr`;
`getattr(exception, 'data', ...)` reads `dataAttr`; `isNotFoundKind` is
`isinstance(exception, (NotFound, ObjectDoesNotExist))`. -/
structure PyExn where
  className : String
  message : String
  idAttr : Option String
  dataAttr : Option (List (String × String))
  isNotFoundKind : Bool
deriving Repr, DecidableEq

/-- `str(exception)`: for all exception classes in `services.py` (plain
`Exception` subclasses) this is the message the exception was built with. -/
def PyExn.str (e : PyExn) : String := e.message

/-- The pieces of the Django request that `_handle_500` reads:
`request.path` and whether `request.META.get('REMOTE_ADDR')` is listed in
`settings.INTERNAL_IPS`. -/
structure RequestCtx where
  path : String
  remoteAddrInternal : Bool
deriving Repr, DecidableEq

/-- The dictionary `data` serialized into the 500 response body: it has
exactly the keys `error_message`, `error_code`, `error_data`. -/
structure ErrorPayload where
  error_message : String
  error_code : String
  error_data : List (String × String)
deriving Repr, DecidableEq

/-- The HTTP response produced by `_handle_500` (tastypie
`HttpApplicationError` carries status code 500). -/
structure HttpResponse where
  status : Nat
  body : ErrorPayload
  contentType : String
deriving Repr, DecidableEq

/-- The arguments of the `mail_admins(subject, message, fail_silently=True)`
call. -/
structure Mail where
  subject : String
  body : String
deriving Repr, DecidableEq

/-- The observable outcome of `_handle_500`: the returned HTTP response and
the admin mail handed to `mail_admins`, if that call was made. -/
structure H500Result where
  response : HttpResponse
  mail : Option Mail
deriving Repr, DecidableEq

/-- `ServiceResource._handle_500`.  `theTrace` is the formatted traceback
(external input), `requestRepr` models `repr(request)` which may itself
raise (`.error ()`), and `mailDeliveryOk` models whether the actual mail
delivery succeeds — `mail_admins` is called with `fail_silently=True`, so
delivery failure is swallowed and affects nothing. -/
def handle_500 (debug : Bool) (request : RequestCtx) (exception : PyExn)
    (theTrace : String) (requestRepr : Except Unit String)
    (mailDeliveryOk : Bool) : H500Result :=
  let _ := mailDeliveryOk
  let mail : Option Mail :=
    if !(debug || exception.isNotFoundKind) then
      let subject := "Error (" ++
        (if request.remoteAddrInternal then "internal" else "EXTERNAL") ++
        " IP): " ++ request.path
      let request_repr :=
        match requestRepr with
        | .ok r => r
        | .error _ => "Request repr() unavailable"
      some ⟨subject, theTrace ++ "\n\n" ++ request_repr⟩
    else
      none
  let data : ErrorPayload :=
    ⟨exception.str,
     (exception.idAttr).getD exception.className,
     (exception.dataAttr).getD []⟩
  ⟨⟨500, data, "application/json; charset=utf-8"⟩, mail⟩

/-- The exception raised by `ErrorResource.obj_get_list`:
`TestError('This is a test.')`, a plain `Exception` subclass (no `id`, no
`data` attribute, not a not-found kind). -/
def TestErrorExn : PyExn :=
  ⟨"TestError", "This is a test.", none, none, false⟩

/-- `ErrorResource.obj_get_list`: unconditionally raises `TestError`. -/
def ErrorResource.obj_get_list : Except PyExn (List Unit) :=
  .error TestErrorExn

/-- `SettingsObject`: `pk` is the requested name, `cleansed` is
`debug.cleanse_setting(name, cleansed[name])`. -/
structure SettingsObject where
  pk : String
  cleansed : String
deriving Repr, DecidableEq

/-- The `SettingsObject.__init__` body.  `cl` is `debug.cleanse_setting`,
`safeSettings` is the `debug.get_safe_settings()` dictionary (an association
list with distinct keys), and a `none` result is the `KeyError` raised by
`cleansed[name]` when the key is absent. -/
def SettingsObject.make (cl : String → String → String)
    (safeSettings : List (String × String)) (name : String) :
    Option SettingsObject :=
  (safeSettings.lookup name).map fun v => ⟨name, cl name v⟩

/-- Outcome of `SettingsResource.obj_get`: either the request is terminated
at once with `ImmediateHttpResponse(response=http.HttpNotFound())` (a 404,
bypassing the error formatter), or a `SettingsObject` is returned (a 200),
or — unreachably — a `KeyError` escapes. -/
inductive SettingsGetOutcome where
  | http404 : SettingsGetOutcome
  | ok : SettingsObject → SettingsGetOutcome
  | keyError : SettingsGetOutcome
deriving Repr, DecidableEq

/-- `SettingsResource.obj_get`. -/
def SettingsResource.obj_get (cl : String → String → String)
    (safeSettings : List (String × String)) (pk : String) :
    SettingsGetOutcome :=
  if (safeSettings.lookup pk).isNone then
    .http404
  else
    match SettingsObject.make cl safeSettings pk with
    | some o => .ok o
    | none => .keyError

/-- The comparison `sorted` uses on strings. -/
def strLe (a b : String) : Bool := decide (a ≤ b)

/-- `SettingsResource.obj_get_list`:
`keys = sorted(debug.get_safe_settings().keys())` followed by
`[SettingsObject(k) for k in keys]`; a `none` result would be a `KeyError`
escaping from one of the constructors. -/
def SettingsResource.obj_get_list (cl : String → String → String)
    (safeSettings : List (String × String)) :
    Option (List SettingsObject) :=
  (((safeSettings.map Prod.fst).mergeSort strLe).mapM
    (SettingsObject.make cl safeSettings))

/-- `StatusObject` attribute state: `cache`, `db`, `settings`. -/
structure StatusObject where
  cache : Bool
  db : Bool
  settings : Bool
deriving Repr, DecidableEq

/-- The class-level defaults: `cache = False`, `db = False`,
`settings = True`. -/
def StatusObject.init : StatusObject := ⟨false, false, true⟩

/-- `StatusObject.checks`: `[(k, getattr(self, k)) for k in ['cache', 'db',
'settings']]`. -/
def StatusObject.checks (s : StatusObject) : List (String × Bool) :=
  [("cache", s.cache), ("db", s.db), ("settings", s.settings)]

/-- Python rendering of a boolean by `'%s' % v`. -/
def pyBoolRepr : Bool → String
  | true => "True"
  | false => "False"

/-- `StatusObject.__repr__` (and hence `str(obj)`, since no `__str__` is
defined). -/
def StatusObject.reprStr (s : StatusObject) : String :=
  "<Status: " ++
    String.intercalate ", "
      (s.checks.map fun kv => kv.1 ++ ": " ++ pyBoolRepr kv.2) ++ ">"

/-- A status probe implementation (the class loaded from
`SERVICES_STATUS_MODULE`).  Each of `test_cache`, `test_db`,
`test_settings` is a method: it may raise (`.error`), and otherwise yields
the mutated object state together with the truthiness of its Python return
value (which `StatusObject.test` never looks at). -/
structure ProbeImpl where
  test_cache : StatusObject → Except PyExn (StatusObject × Bool)
  test_db : StatusObject → Except PyExn (StatusObject × Bool)
  test_settings : StatusObject → Except PyExn (StatusObject × Bool)

/-- `raise NotImplementedError` (no message, no `id`, no `data`). -/
def NotImplementedErrorExn : PyExn :=
  ⟨"NotImplementedError", "", none, none, false⟩

/-- The base `StatusObject` probe methods: each one raises
`NotImplementedError`. -/
def baseProbeImpl : ProbeImpl :=
  ⟨fun _ => .error NotImplementedErrorExn,
   fun _ => .error NotImplementedErrorExn,
   fun _ => .error NotImplementedErrorExn⟩

/-- `StatusObject.test`: calls `self.test_cache()`, `self.test_db()`,
`self.test_settings()` in that order (an exception propagates) and returns
`all([c[1] for c in self.checks])`.  The first component is the trace of
the probe methods actually invoked. -/
def StatusObject.test (p : ProbeImpl) (s : StatusObject) :
    List String × Except PyExn (StatusObject × Bool) :=
  match p.test_cache s with
  | .error e => (["test_cache"], .error e)
  | .ok (s1, _) =>
    match p.test_db s1 with
    | .error e => (["test_cache", "test_db"], .error e)
    | .ok (s2, _) =>
      match p.test_settings s2 with
      | .error e => (["test_cache", "test_db", "test_settings"], .error e)
      | .ok (s3, _) =>
        (["test_cache", "test_db", "test_settings"],
         .ok (s3, (s3.checks.map Prod.snd).all id))

/-- `StatusError(str(obj))`: a plain `Exception` subclass. -/
def StatusErrorExn (msg : String) : PyExn :=
  ⟨"StatusError", msg, none, none, false⟩

/-- `StatusResource.obj_get`: instantiate the configured `StatusObject`,
run `test()`; on a falsy result raise `StatusError(str(obj))`, else return
the object.  An exception raised by a probe propagates. -/
def StatusResource.obj_get (p : ProbeImpl) : Except PyExn StatusObject :=
  match (StatusObject.test p StatusObject.init).2 with
  | .error e => .error e
  | .ok (obj, b) =>
    if b then .ok obj else .error (StatusErrorExn obj.reprStr)

/-- `StatusResource.obj_get_list`: `return [self.obj_get(request,
**kwargs)]`. -/
def StatusResource.obj_get_list (p : ProbeImpl) :
    Except PyExn (List StatusObject) :=
  match StatusResource.obj_get p with
  | .error e => .error e
  | .ok o => .ok [o]

/-- `pat` is a leading segment of the second list. -/
def leadsList : List Char → List Char → Bool
  | [], _ => true
  | _ :: _, [] => false
  | a :: as, b :: bs => a == b && leadsList as bs

/-- `pat` occurs contiguously somewhere in the list. -/
def hasSeg (pat : List Char) : List Char → Bool
  | [] => leadsList pat []
  | c :: cs => leadsList pat (c :: cs) || hasSeg pat cs

/-- Substring test: Python `pat in hay`. -/
def strContains (hay pat : String) : Bool := hasSeg pat.data hay.data

/-- A concrete healthy probe implementation: sets `cache` and `db` to
`True` and leaves `settings` alone. -/
def goodProbe : ProbeImpl :=
  ⟨fun s => .ok (⟨true, s.db, s.settings⟩, true),
   fun s => .ok (⟨s.cache, true, s.settings⟩, true),
   fun s => .ok (s, true)⟩

/-- Same state behaviour as `goodProbe`, but every probe method returns a
falsy value. -/
def goodProbeFalsyRet : ProbeImpl :=
  ⟨fun s => .ok (⟨true, s.db, s.settings⟩, false),
   fun s => .ok (⟨s.cache, true, s.settings⟩, false),
   fun s => .ok (s, false)⟩

/-- A concrete failing probe implementation: leaves every attribute at its
default, so `cache` stays `False`. -/
def defaultStateProbe : ProbeImpl :=
  ⟨fun s => .ok (s, true), fun s => .ok (s, true), fun s => .ok (s, true)⟩

/-- C1: for every caught exception, `_handle_500` produces a status-500
response whose JSON body has exactly the fields `error_message` (the string
form of the exception), `error_code` (the exception's `id` attribute if
present, else its class name) and `error_data` (the exception's `data`
attribute if present, else an empty mapping), with content type
`application/json; charset=utf-8`. -/
theorem handle_500_formats_every_exception (debug : Bool) (req : RequestCtx)
    (e : PyExn) (tr : String) (rr : Except Unit String) (mo : Bool) :
    (handle_500 debug req e tr rr mo).response.status = 500 ∧
    (handle_500 debug req e tr rr mo).response.contentType =
      "application/json; charset=utf-8" ∧
    (handle_500 debug req e tr rr mo).response.body.error_message = e.str ∧
    (handle_500 debug req e tr rr mo).response.body.error_code =
      (e.idAttr).getD e.className ∧
    (handle_500 debug req e tr rr mo).response.body.error_data =
      (e.dataAttr).getD [] :=
  ⟨rfl, rfl, rfl, rfl, rfl⟩

/-- C6: `GET /error/` always raises `TestError`, for every request and all
configuration, and the resulting response has status 500 with
`error_code = "TestError"` and `error_message = "This is a test."`. -/
theorem error_resource_always_500 (debug : Bool) (req : RequestCtx)
    (tr : String) (rr : Except Unit String) (mo : Bool) :
    ErrorResource.obj_get_list = .error TestErrorExn ∧
    (handle_500 debug req TestErrorExn tr rr mo).response.status = 500 ∧
    (handle_500 debug req TestErrorExn tr rr mo).response.body.error_code =
      "TestError" ∧
    (handle_500 debug req TestErrorExn tr rr mo).response.body.error_message =
      "This is a test." :=
  ⟨rfl, rfl, rfl, rfl⟩

/-- C7: in `_handle_500` the admin mail is handed to `mail_admins` if and
only if debug mode is off and the exception is not of a not-found kind. -/
theorem handle_500_mail_iff (debug : Bool) (req : RequestCtx) (e : PyExn)
    (tr : String) (rr : Except Unit String) (mo : Bool) :
    (handle_500 debug req e tr rr mo).mail.isSome = true ↔
      (debug = false ∧ e.isNotFoundKind = false) := by
  cases e with
  | mk cn msg ia da nf =>
    cases debug <;> cases nf <;>
      simp [handle_500]

/-- C8: a failure while computing `repr(request)` or while delivering the
admin mail does not propagate: the response `_handle_500` returns is the
same for every outcome of those two steps, and is always the 500 JSON error
response. -/
theorem handle_500_failures_do_not_propagate (debug : Bool)
    (req : RequestCtx) (e : PyExn) (tr : String)
    (rr1 rr2 : Except Unit String) (mo1 mo2 : Bool) :
    (handle_500 debug req e tr rr1 mo1).response =
      (handle_500 debug req e tr rr2 mo2).response ∧
    (handle_500 debug req e tr rr1 mo1).response.status = 500 ∧
    (handle_500 debug req e tr rr1 mo1).response.contentType =
      "application/json; charset=utf-8" :=
  ⟨rfl, rfl, rfl⟩

/-- The repr of a status object contains each check name together with that
check's boolean value. -/
theorem reprStr_contains_checks (s : StatusObject) :
    strContains s.reprStr ("cache: " ++ pyBoolRepr s.cache) = true ∧
    strContains s.reprStr ("db: " ++ pyBoolRepr s.db) = true ∧
    strContains s.reprStr ("settings: " ++ pyBoolRepr s.settings) = true := by
  cases s with
  | mk c d st => cases c <;> cases d <;> cases st <;> decide

/-- C4: when all three probe methods run without raising, `obj_get` returns
the final object (a 200) when its `cache`, `db` and `settings` attributes
are all true, and otherwise raises a `StatusError` whose message contains
each check name with its boolean value, which the error formatter turns
into a status-500 response. -/
theorem status_obj_get_cases (p : ProbeImpl) (s1 s2 s3 : StatusObject)
    (b1 b2 b3 : Bool)
    (h1 : p.test_cache StatusObject.init = .ok (s1, b1))
    (h2 : p.test_db s1 = .ok (s2, b2))
    (h3 : p.test_settings s2 = .ok (s3, b3)) :
    (s3.cache = true ∧ s3.db = true ∧ s3.settings = true →
      StatusResource.obj_get p = .ok s3) ∧
    (¬(s3.cache = true ∧ s3.db = true ∧ s3.settings = true) →
      ∃ e, StatusResource.obj_get p = .error e ∧
        e.className = "StatusError" ∧
        strContains e.message ("cache: " ++ pyBoolRepr s3.cache) = true ∧
        strContains e.message ("db: " ++ pyBoolRepr s3.db) = true ∧
        strContains e.message
          ("settings: " ++ pyBoolRepr s3.settings) = true ∧
        ∀ (debug : Bool) (req : RequestCtx) (tr : String)
          (rr : Except Unit String) (mo : Bool),
          (handle_500 debug req e tr rr mo).response.status = 500) := by
  have htest : StatusObject.test p StatusObject.init =
      (["test_cache", "test_db", "test_settings"],
       .ok (s3, (s3.checks.map Prod.snd).all id)) := by
    simp only [StatusObject.test, h1, h2, h3]
  constructor
  · rintro ⟨hc, hd, hs⟩
    unfold StatusResource.obj_get
    rw [htest]
    simp [StatusObject.checks, hc, hd, hs]
  · intro hne
    have hfalse : (s3.checks.map Prod.snd).all id = false := by
      cases hc : s3.cache <;> cases hd : s3.db <;> cases hs : s3.settings <;>
        simp [StatusObject.checks, hc, hd, hs] at hne ⊢
    refine ⟨StatusErrorExn s3.reprStr, ?_, rfl, ?_, ?_, ?_, fun _ _ _ _ _ => rfl⟩
    · unfold StatusResource.obj_get
      rw [htest]
      simp [hfalse]
    · exact (reprStr_contains_checks s3).1
    · exact (reprStr_contains_checks s3).2.1
    · exact (reprStr_contains_checks s3).2.2

/-- Witness for C4: `goodProbe` sets all three attributes true, and
`obj_get` returns the object. -/
theorem status_obj_get_cases_witness :
    StatusResource.obj_get goodProbe = .ok ⟨true, true, true⟩ :=
  (status_obj_get_cases goodProbe ⟨true, false, true⟩ ⟨true, true, true⟩
    ⟨true, true, true⟩ true true true rfl rfl rfl).1 ⟨rfl, rfl, rfl⟩

/-- C5 counterexample: with the base probe implementation, `test_cache`
raises `NotImplementedError`; `obj_get` propagates that very exception —
no `StatusError` is raised, and the propagated error's message does not
carry the three check results. -/
theorem status_notimpl_counterexample :
    StatusResource.obj_get baseProbeImpl = .error NotImplementedErrorExn ∧
    NotImplementedErrorExn.className ≠ "StatusError" ∧
    strContains NotImplementedErrorExn.message "cache" = false :=
  ⟨rfl, by decide, by decide⟩

/-- C5 (amended): if a probe method raises `NotImplementedError` during
`GET /status/`, that exception propagates out of `obj_get` unchanged (no
`StatusError` is raised), and the request ends as HTTP 500 with
`error_code = "NotImplementedError"`. -/
theorem status_notimpl_propagates (p : ProbeImpl)
    (h : (StatusObject.test p StatusObject.init).2 =
      .error NotImplementedErrorExn) :
    StatusResource.obj_get p = .error NotImplementedErrorExn ∧
    ∀ (debug : Bool) (req : RequestCtx) (tr : String)
      (rr : Except Unit String) (mo : Bool),
      (handle_500 debug req NotImplementedErrorExn tr rr mo).response.status
        = 500 ∧
      (handle_500 debug req NotImplementedErrorExn tr rr
        mo).response.body.error_code = "NotImplementedError" := by
  constructor
  · simp only [StatusResource.obj_get, h]
  · exact fun _ _ _ _ _ => ⟨rfl, rfl⟩

/-- Witness for the amended C5, at the base probe implementation. -/
theorem status_notimpl_propagates_witness :
    StatusResource.obj_get baseProbeImpl = .error NotImplementedErrorExn :=
  (status_notimpl_propagates baseProbeImpl rfl).1

/-- C9: the status list endpoint is the detail endpoint up to wrapping: it
returns the singleton list of the object `obj_get` produces, and raises
exactly the exception `obj_get` raises. -/
theorem status_list_refines_detail (p : ProbeImpl) :
    (∀ o, StatusResource.obj_get p = .ok o →
      StatusResource.obj_get_list p = .ok [o]) ∧
    (∀ e, StatusResource.obj_get p = .error e →
      StatusResource.obj_get_list p = .error e) := by
  constructor
  · intro o h
    simp only [StatusResource.obj_get_list, h]
  · intro e h
    simp only [StatusResource.obj_get_list, h]

/-- Witness for C9 at the healthy probe implementation. -/
theorem status_list_refines_detail_witness :
    StatusResource.obj_get_list goodProbe = .ok [⟨true, true, true⟩] :=
  (status_list_refines_detail goodProbe).1 ⟨true, true, true⟩ rfl

/-- Inversion for equality of `Except.map Prod.fst` images. -/
theorem except_map_fst_cases {ε α β : Type} {x y : Except ε (α × β)}
    (h : Except.map Prod.fst x = Except.map Prod.fst y) :
    (∃ e, x = Except.error e ∧ y = Except.error e) ∨
    (∃ a b1 b2, x = Except.ok (a, b1) ∧ y = Except.ok (a, b2)) := by
  cases x with
  | error e =>
    cases y with
    | error f =>
      simp only [Except.map] at h
      cases h
      exact Or.inl ⟨e, rfl, rfl⟩
    | ok w => simp [Except.map] at h
  | ok v =>
    cases y with
    | error f => simp [Except.map] at h
    | ok w =>
      simp only [Except.map, Except.ok.injEq] at h
      exact Or.inr ⟨v.1, v.2, w.2, by cases v; rfl, by cases w; simp [h]⟩

/-- C10: `StatusObject.test` invokes `test_cache`, `test_db`,
`test_settings` in that fixed order; on a non-raising run its boolean
result is the conjunction of the `cache`, `db`, `settings` attributes read
afterwards; and it is insensitive to the values the probe methods return —
two implementations with the same state behaviour (raising the same
exceptions and producing the same mutated states) run identically, whatever
their methods return. -/
theorem status_test_exec (p q : ProbeImpl) (s : StatusObject)
    (hc : ∀ t, Except.map Prod.fst (q.test_cache t) =
      Except.map Prod.fst (p.test_cache t))
    (hd : ∀ t, Except.map Prod.fst (q.test_db t) =
      Except.map Prod.fst (p.test_db t))
    (hs : ∀ t, Except.map Prod.fst (q.test_settings t) =
      Except.map Prod.fst (p.test_settings t)) :
    (∀ obj b, (StatusObject.test p s).2 = .ok (obj, b) →
      (StatusObject.test p s).1 = ["test_cache", "test_db", "test_settings"] ∧
      b = (obj.cache && (obj.db && obj.settings))) ∧
    StatusObject.test q s = StatusObject.test p s := by
  constructor
  · intro obj b h
    unfold StatusObject.test at h ⊢
    rcases e1 : p.test_cache s with e | ⟨t1, r1⟩
    · simp [e1] at h
    rcases e2 : p.test_db t1 with e | ⟨t2, r2⟩
    · simp [e1, e2] at h
    rcases e3 : p.test_settings t2 with e | ⟨t3, r3⟩
    · simp [e1, e2, e3] at h
    simp only [e1, e2, e3, Except.ok.injEq, Prod.mk.injEq] at h ⊢
    obtain ⟨rfl, rfl⟩ := h
    refine ⟨trivial, ?_⟩
    cases t3
    simp [StatusObject.checks]
  · unfold StatusObject.test
    rcases except_map_fst_cases (hc s) with ⟨e, hq1, hp1⟩ |
        ⟨a1, bq1, bp1, hq1, hp1⟩
    · simp [hq1, hp1]
    rcases except_map_fst_cases (hd a1) with ⟨e, hq2, hp2⟩ |
        ⟨a2, bq2, bp2, hq2, hp2⟩
    · simp [hq1, hp1, hq2, hp2]
    rcases except_map_fst_cases (hs a2) with ⟨e, hq3, hp3⟩ |
        ⟨a3, bq3, bp3, hq3, hp3⟩
    · simp [hq1, hp1, hq2, hp2, hq3, hp3]
    simp [hq1, hp1, hq2, hp2, hq3, hp3]

/-- Witness for C10: the healthy probe runs all three checks in order,
yields `True`, and swapping every probe's return value for a falsy one
changes nothing. -/
theorem status_test_exec_witness :
    ((StatusObject.test goodProbe StatusObject.init).1 =
        ["test_cache", "test_db", "test_settings"] ∧
      true = (true && (true && true))) ∧
    StatusObject.test goodProbeFalsyRet StatusObject.init =
      StatusObject.test goodProbe StatusObject.init :=
  ⟨(status_test_exec goodProbe goodProbeFalsyRet StatusObject.init
      (fun _ => rfl) (fun _ => rfl) (fun _ => rfl)).1
      ⟨true, true, true⟩ true rfl,
   (status_test_exec goodProbe goodProbeFalsyRet StatusObject.init
      (fun _ => rfl) (fun _ => rfl) (fun _ => rfl)).2⟩

/-- C2: `SettingsResource.obj_get` terminates the request with an immediate
404 when the key is absent from the safe snapshot (no settings object is
built, the error formatter is not involved), and returns the object with
`key = pk` and the redacted value when the key is present. -/
theorem settings_obj_get_spec (cl : String → String → String)
    (ss : List (String × String)) (pk : String) :
    (ss.lookup pk = none →
      SettingsResource.obj_get cl ss pk = SettingsGetOutcome.http404) ∧
    (∀ v, ss.lookup pk = some v →
      SettingsResource.obj_get cl ss pk =
        SettingsGetOutcome.ok ⟨pk, cl pk v⟩) := by
  constructor
  · intro h
    simp [SettingsResource.obj_get, h]
  · intro v h
    simp [SettingsResource.obj_get, SettingsObject.make, h]

/-- Witness for C2: a present key yields a 200 object, an absent key the
immediate 404. -/
theorem settings_obj_get_spec_witness :
    SettingsResource.obj_get (fun _ v => v) [("DEBUG", "False")] "DEBUG" =
      SettingsGetOutcome.ok ⟨"DEBUG", "False"⟩ ∧
    SettingsResource.obj_get (fun _ v => v) [("DEBUG", "False")] "MISSING" =
      SettingsGetOutcome.http404 :=
  ⟨(settings_obj_get_spec (fun _ v => v) [("DEBUG", "False")] "DEBUG").2
      "False" (by decide),
   (settings_obj_get_spec (fun _ v => v) [("DEBUG", "False")] "MISSING").1
      (by decide)⟩

/-- A key occurring among the keys of an association list has a lookup
value. -/
theorem mem_keys_lookup {k : String} : ∀ {ss : List (String × String)},
    k ∈ ss.map Prod.fst → ∃ v, ss.lookup k = some v := by
  intro ss h
  induction ss with
  | nil => simp at h
  | cons a t ih =>
    rcases a with ⟨a1, a2⟩
    by_cases hk : k = a1
    · exact ⟨a2, by simp [List.lookup, hk]⟩
    · have hmem : k ∈ t.map Prod.fst := by
        simpa [hk] using h
      obtain ⟨v, hv⟩ := ih hmem
      have hbeq : (k == a1) = false := by
        simp [hk]
      exact ⟨v, by simp [List.lookup, hbeq, hv]⟩

/-- Mapping `SettingsObject.make` over keys of the snapshot never hits a
`KeyError`, and preserves the key list. -/
theorem mapM_make_keys (cl : String → String → String)
    (ss : List (String × String)) :
    ∀ ks : List String, (∀ k ∈ ks, k ∈ ss.map Prod.fst) →
      ∃ l, ks.mapM (SettingsObject.make cl ss) = some l ∧
        l.map SettingsObject.pk = ks := by
  intro ks
  induction ks with
  | nil => exact fun _ => ⟨[], rfl, rfl⟩
  | cons k t ih =>
    intro h
    obtain ⟨v, hv⟩ := mem_keys_lookup (h k (by simp))
    obtain ⟨l, hl, hmap⟩ := ih fun x hx => h x (by simp [hx])
    refine ⟨⟨k, cl k v⟩ :: l, ?_, by simp [hmap]⟩
    rw [List.mapM_cons, hl]
    simp [SettingsObject.make, hv]

/-- C3: over a snapshot with distinct keys (a Python dictionary),
`GET /settings/` yields exactly one entry per snapshot key — none added,
none missing — and the keys appear in strictly ascending lexicographic
order. -/
theorem settings_obj_get_list_sorted (cl : String → String → String)
    (ss : List (String × String)) (hnd : (ss.map Prod.fst).Nodup) :
    ∃ l, SettingsResource.obj_get_list cl ss = some l ∧
      (l.map SettingsObject.pk).Perm (ss.map Prod.fst) ∧
      (l.map SettingsObject.pk).Sorted (· < ·) := by
  have hperm : ((ss.map Prod.fst).mergeSort strLe).Perm (ss.map Prod.fst) :=
    List.mergeSort_perm _ _
  have hmem : ∀ k ∈ (ss.map Prod.fst).mergeSort strLe, k ∈ ss.map Prod.fst :=
    fun k hk => hperm.mem_iff.mp hk
  obtain ⟨l, hl, hmap⟩ := mapM_make_keys cl ss _ hmem
  refine ⟨l, hl, ?_, ?_⟩
  · rw [hmap]
    exact hperm
  · rw [hmap]
    have htrans : ∀ a b c : String,
        strLe a b = true → strLe b c = true → strLe a c = true := by
      intro a b c hab hbc
      simp only [strLe, decide_eq_true_eq] at hab hbc ⊢
      exact le_trans hab hbc
    have htotal : ∀ a b : String, (strLe a b || strLe b a) = true := by
      intro a b
      simp only [strLe, Bool.or_eq_true, decide_eq_true_eq]
      exact le_total a b
    have hsorted := List.sorted_mergeSort htrans htotal (ss.map Prod.fst)
    have hle : ((ss.map Prod.fst).mergeSort strLe).Sorted (· ≤ ·) := by
      refine hsorted.imp ?_
      intro a b hab
      simpa [strLe, decide_eq_true_eq] using hab
    exact hle.lt_of_le (hperm.nodup_iff.mpr hnd)

/-- Witness for C3 at a concrete two-key snapshot. -/
theorem settings_obj_get_list_sorted_witness :
    ∃ l, SettingsResource.obj_get_list (fun _ v => v)
        [("SECRET_KEY", "x"), ("DEBUG", "False")] = some l ∧
      (l.map SettingsObject.pk).Perm ["SECRET_KEY", "DEBUG"] ∧
      (l.map SettingsObject.pk).Sorted (· < ·) :=
  settings_obj_get_list_sorted (fun _ v => v)
    [("SECRET_KEY", "x"), ("DEBUG", "False")] (by decide)
